import Mathlib

/-!
Verification of the `newstr` crate (`src/lib.rs`): declarative macros that generate
String-based newtypes.  The macros are shallowly embedded as Lean functions
parameterised by the user-supplied predicate or parse function; the generated
single-field struct `pub struct T(String)` is embedded as the structure `Generated`.
-/

namespace Newstr

/-- Rust `Result::is_ok`, modelled on `Except`. -/
def is_ok {ε α : Type} : Except ε α → Bool
  | Except.ok _ => true
  | Except.error _ => false

/-- Tags for the traits that can appear in a `#[derive(...)]` list.  `peq` stands for
`PartialEq` and `pord` for `PartialOrd`; `other` covers any further user-supplied
trait name. -/
inductive TraitTag
  | clone
  | debug
  | peq
  | pord
  | eq
  | ord
  | hash
  | deserialize
  | serialize
  | other (s : String)
deriving DecidableEq, Repr

/-- The derive list emitted by the `standard_struct!` macro (lib.rs lines 96-111).
The empty list models the no-extras arm
`#[derive(Clone, Debug, PartialEq, PartialOrd, Eq, Ord, Hash)]`;
a non-empty list models the variadic arm
`#[derive(Clone, Debug, PartialEq, PartialOrd, Eq, Ord, $($other),*)]`,
which splices the extra identifiers after `Ord` and does NOT list `Hash`. -/
def standard_struct_derives (extra : List TraitTag) : List TraitTag :=
  match extra with
  | [] => [TraitTag.clone, TraitTag.debug, TraitTag.peq, TraitTag.pord,
      TraitTag.eq, TraitTag.ord, TraitTag.hash]
  | es => [TraitTag.clone, TraitTag.debug, TraitTag.peq, TraitTag.pord,
      TraitTag.eq, TraitTag.ord] ++ es

/-- The derive list of the `serde` arm of `standard_struct!` (lib.rs lines 103-106):
`#[derive(Clone, Debug, PartialEq, PartialOrd, Eq, Ord, Hash, Deserialize, Serialize)]`. -/
def standard_struct_derives_serde : List TraitTag :=
  [TraitTag.clone, TraitTag.debug, TraitTag.peq, TraitTag.pord,
    TraitTag.eq, TraitTag.ord, TraitTag.hash, TraitTag.deserialize, TraitTag.serialize]

/-- The fixed capability set every generated type is documented to have
(lib.rs module docs: Clone, Debug, PartialEq, PartialOrd, Eq, Ord, Hash). -/
def fixedDeriveSet : List TraitTag :=
  [TraitTag.clone, TraitTag.debug, TraitTag.peq, TraitTag.pord,
    TraitTag.eq, TraitTag.ord, TraitTag.hash]

/-- The generated newtype `pub struct $new_name(String)`: a single owned `String`
payload and nothing else. -/
structure Generated where
  inner : String
deriving DecidableEq, Repr

/-- The `Display` impl from `standard_impls!`: `write!(f, "{}", self.0)` renders the
payload verbatim (Rust's `{}` on a `String` performs no quoting or escaping). -/
def display (v : Generated) : String := v.inner

/-- The `From<$new_name> for String` impl from `standard_impls!`: returns `v.0`. -/
def string_from (v : Generated) : String := v.inner

/-- The `Deref` impl (target `str`) from `standard_impls!`: returns `&self.0`,
a borrowed view of the payload bytes. -/
def deref (v : Generated) : String := v.inner

/-- Predicate mode, from `is_valid_inner!`: `pub fn is_valid(s: &str) -> bool`
is `$closure(s)`. -/
def is_valid_pred (p : String → Bool) (s : String) : Bool := p s

/-- Predicate mode, from `is_valid_inner!`: `FromStr::from_str` is
`if Self::is_valid(s) { Ok(Self(s.to_string())) } else { Err(()) }`
with error type `()`. -/
def from_str_pred (p : String → Bool) (s : String) : Except Unit Generated :=
  if is_valid_pred p s then Except.ok (Generated.mk s) else Except.error ()

/-- Parse mode, from `from_str_inner!`: `FromStr::from_str` is
`$closure(s).map(|s| Self(s))` with caller-chosen error type `$error`. -/
def from_str_parse {ε : Type} (f : String → Except ε String) (s : String) :
    Except ε Generated :=
  Except.map Generated.mk (f s)

/-- Parse mode, from `from_str_inner!`: `pub fn is_valid(s: &str) -> bool` is
`Self::from_str(s).is_ok()`. -/
def is_valid_parse {ε : Type} (f : String → Except ε String) (s : String) : Bool :=
  is_ok (from_str_parse f s)

/-- The default-error arm of `from_str_newstring!` (lib.rs lines 390-392) expands to the
explicit-error arm with error type `()`. -/
def from_str_parse_defaultErr (f : String → Except Unit String) (s : String) :
    Except Unit Generated :=
  from_str_parse f s

/-- Behaviour of the derived `PartialEq`/`Eq` on the single-field struct:
field-wise equality of the payloads. -/
def derived_eq (v1 v2 : Generated) : Bool := v1.inner == v2.inner

/-- Behaviour of the derived `PartialOrd`/`Ord` strict order on the single-field
struct: the `String` order on the payloads (lexicographic). -/
def derived_lt (v1 v2 : Generated) : Prop := v1.inner < v2.inner

/-- Behaviour of the derived `Hash` on the single-field struct: it hashes exactly the
payload, for any underlying string hasher `h`. -/
def derived_hash (h : String → Nat) (v : Generated) : Nat := h v.inner

/-- The predicate of the crate's doc example (lib.rs lines 32-34):
non-empty, all characters ASCII alphanumeric or underscore. -/
def is_identifier_value (s : String) : Bool :=
  !s.isEmpty && s.data.all fun c => c.isAlphanum || c == '_'

/-- The parse function of the crate's doc example (lib.rs lines 352-358):
succeed with the input unchanged iff every character is uppercase. -/
def parse_uppercase_only (s : String) : Except Unit String :=
  if s.data.all Char.isUpper then Except.ok s else Except.error ()

/-- A parse function that succeeds on `"a"` returning the different text `"b"`, and
fails elsewhere.  It is a legal argument to `from_str_newstring!` (shape
`fn(&str) -> Result<String, Err>`). -/
def swapParse : String → Except Unit String :=
  fun s => if s = "a" then Except.ok "b" else Except.error ()

/-- The always-succeeding identity parse function `|s: &str| Ok(s.to_string())`
(as used in tests/other_traits.rs). -/
def okParse : String → Except Unit String := fun s => Except.ok s

/-- Decision procedure: does the regex match some prefix of the character list?
Implemented with Mathlib's `RegularExpression.rmatch` over the list of inits. -/
def matchHere (r : RegularExpression Char) (cs : List Char) : Bool :=
  cs.inits.any fun pre => r.rmatch pre

/-- Non-anchored search: does the regex match some contiguous substring of the
character list?  This models the regex crate's `Regex::is_match`, which the
function emitted by `regex_is_valid!` calls on its cached compiled pattern
(lib.rs lines 314-327). -/
def searchMatch (r : RegularExpression Char) : List Char → Bool
  | [] => matchHere r []
  | c :: cs => matchHere r (c :: cs) || searchMatch r cs

/-- The predicate function emitted by `regex_is_valid!`:
`fn $fn_name(s: &str) -> bool { VALID_VALUE.is_match(s) }` where `VALID_VALUE` is
the compiled regex; the matcher semantics are modelled by `searchMatch`. -/
def regex_is_valid (r : RegularExpression Char) (s : String) : Bool :=
  searchMatch r s.data

/-- The character class `[0-9]` as a regular expression. -/
def digitRE : RegularExpression Char :=
  RegularExpression.char '0' + RegularExpression.char '1' + RegularExpression.char '2' +
    RegularExpression.char '3' + RegularExpression.char '4' + RegularExpression.char '5' +
    RegularExpression.char '6' + RegularExpression.char '7' + RegularExpression.char '8' +
    RegularExpression.char '9'

/-- The pattern `[0-9]+`, i.e. one digit followed by any number of digits. -/
def digitsPlus : RegularExpression Char := digitRE * digitRE.star

/-- Modelled from the spec: the `new_unchecked!` macro.  Its implementation is not
under src/ (only its invocation in tests/required.rs is); per spec section 4.6 it
wraps any text-like input as the payload with no validation. -/
def new_unchecked (s : String) : Generated := Generated.mk s

/-- Mapping the success value of an `Except` does not change whether it is `ok`. -/
theorem is_ok_map {ε α β : Type} (g : α → β) (e : Except ε α) :
    is_ok (Except.map g e) = is_ok e := by
  cases e <;> rfl

/-- A regex matches some prefix of `cs` iff `cs` splits as `mid ++ post` with `mid` in
the regex's language. -/
theorem matchHere_iff (r : RegularExpression Char) (cs : List Char) :
    matchHere r cs = true ↔ ∃ mid post, cs = mid ++ post ∧ mid ∈ r.matches' := by
  simp only [matchHere, List.any_eq_true]
  constructor
  · rintro ⟨mid, hmem, hm⟩
    obtain ⟨post, rfl⟩ := (List.mem_inits mid cs).1 hmem
    exact ⟨mid, post, rfl, (RegularExpression.rmatch_iff_matches' r mid).1 hm⟩
  · rintro ⟨mid, post, rfl, hm⟩
    exact ⟨mid, (List.mem_inits mid (mid ++ post)).2 ⟨post, rfl⟩,
      (RegularExpression.rmatch_iff_matches' r mid).2 hm⟩

/-- Non-anchored search is correct: `searchMatch` succeeds iff some contiguous
substring of the input is in the regex's language. -/
theorem searchMatch_iff (r : RegularExpression Char) (cs : List Char) :
    searchMatch r cs = true ↔
      ∃ pre mid post, cs = pre ++ (mid ++ post) ∧ mid ∈ r.matches' := by
  induction cs with
  | nil =>
    rw [searchMatch, matchHere_iff]
    constructor
    · rintro ⟨mid, post, h, hm⟩
      exact ⟨[], mid, post, h, hm⟩
    · rintro ⟨pre, mid, post, h, hm⟩
      obtain ⟨hpre, h2⟩ := List.append_eq_nil.1 h.symm
      obtain ⟨hmid, hpost⟩ := List.append_eq_nil.1 h2
      subst hmid
      exact ⟨[], post, h2.symm, hm⟩
  | cons c cs ih =>
    rw [searchMatch, Bool.or_eq_true, matchHere_iff, ih]
    constructor
    · rintro (⟨mid, post, h, hm⟩ | ⟨pre, mid, post, h, hm⟩)
      · exact ⟨[], mid, post, h, hm⟩
      · exact ⟨c :: pre, mid, post, by simp [h], hm⟩
    · rintro ⟨pre, mid, post, h, hm⟩
      cases pre with
      | nil => exact Or.inl ⟨mid, post, by simpa using h, hm⟩
      | cons p ps =>
        have h2 : c = p ∧ cs = ps ++ (mid ++ post) := List.cons.inj (by simpa using h)
        exact Or.inr ⟨ps, mid, post, h2.2, hm⟩

/-- Claim C1: the fixed capability set (including `Hash`) would be unchanged when extra
derive tags are spliced in.  The code violates this: the variadic arm of
`standard_struct!` (lib.rs line 100) omits `Hash` from the derive list, contradicting
the crate's own module docs, which promise `Hash` for every generated type.  This
theorem evaluates the embedded derive lists at the failing input
`extra = [Serialize]`: `Hash` is present with no extras but absent with extras. -/
theorem c1_hash_dropped_with_extras :
    TraitTag.hash ∈ standard_struct_derives [] ∧
    TraitTag.hash ∉ standard_struct_derives [TraitTag.serialize] ∧
    standard_struct_derives [TraitTag.serialize] =
      [TraitTag.clone, TraitTag.debug, TraitTag.peq, TraitTag.pord,
        TraitTag.eq, TraitTag.ord, TraitTag.serialize] ∧
    TraitTag.hash ∈ fixedDeriveSet := by
  refine ⟨by decide, by decide, rfl, by decide⟩

/-- Claim C2 as stated is false: in parse mode the stored payload of a value built by
`from_str` need not satisfy `is_valid`, because the parse function may return a text
it would itself reject.  Concretely, `swapParse` sends `"a"` to `Ok("b")`, so
`from_str("a")` stores payload `"b"`, yet `is_valid("b")` is false. -/
theorem c2_counterexample :
    from_str_parse swapParse "a" = Except.ok (Generated.mk "b") ∧
    is_valid_parse swapParse (Generated.mk "b").inner = false := by
  exact ⟨rfl, rfl⟩

/-- Claim C2 amended: in predicate mode the payload of every `from_str`-constructed
value satisfies `is_valid`; in parse mode the same holds provided the parse function
accepts every text it itself returns successfully. -/
theorem c2_payload_valid (p : String → Bool) {ε : Type} (f : String → Except ε String)
    (hf : ∀ s t, f s = Except.ok t → is_ok (f t) = true) (s : String) (v : Generated) :
    (from_str_pred p s = Except.ok v → is_valid_pred p v.inner = true) ∧
    (from_str_parse f s = Except.ok v → is_valid_parse f v.inner = true) := by
  constructor
  · intro h
    rw [from_str_pred] at h
    by_cases hp : is_valid_pred p s = true
    · rw [if_pos hp] at h
      cases h
      exact hp
    · rw [if_neg hp] at h
      exact absurd h (by simp)
  · intro h
    rw [from_str_parse] at h
    cases hfs : f s with
    | ok t =>
      rw [hfs] at h
      cases h
      rw [is_valid_parse, from_str_parse, is_ok_map]
      exact hf s t hfs
    | error e =>
      rw [hfs] at h
      exact absurd h (by simp [Except.map])

/-- Witness for the amended C2: with the identifier predicate and the identity parse
function, the payload `"hi"` of the parsed value satisfies the validity check in both
modes. -/
theorem c2_payload_valid_witness :
    is_valid_pred is_identifier_value (Generated.mk "hi").inner = true ∧
    is_valid_parse okParse (Generated.mk "hi").inner = true :=
  ⟨(c2_payload_valid is_identifier_value okParse (fun _ _ _ => rfl) "hi"
      (Generated.mk "hi")).1 rfl,
    (c2_payload_valid is_identifier_value okParse (fun _ _ _ => rfl) "hi"
      (Generated.mk "hi")).2 rfl⟩

/-- Claim C3: in both predicate mode and parse mode, the static validity check returns
true iff the parse entry point succeeds. -/
theorem c3_is_valid_iff_from_str_ok (p : String → Bool) {ε : Type}
    (f : String → Except ε String) (t : String) :
    (is_valid_pred p t = true ↔ ∃ v, from_str_pred p t = Except.ok v) ∧
    (is_valid_parse f t = true ↔ ∃ v, from_str_parse f t = Except.ok v) := by
  constructor
  · constructor
    · intro h
      exact ⟨Generated.mk t, by rw [from_str_pred, if_pos h]⟩
    · rintro ⟨v, hv⟩
      rw [from_str_pred] at hv
      by_cases hp : is_valid_pred p t = true
      · exact hp
      · rw [if_neg hp] at hv
        exact absurd hv (by simp)
  · rw [is_valid_parse]
    cases hfs : from_str_parse f t with
    | ok v => simp [is_ok]
    | error e => simp [is_ok]

/-- Claim C4: in predicate mode, if the predicate holds on `s` then `from_str s`
returns the value with payload exactly `s`; otherwise it fails with the unit error;
the error type `()` admits no other outcome. -/
theorem c4_pred_mode (p : String → Bool) (s : String) :
    (p s = true → from_str_pred p s = Except.ok (Generated.mk s)) ∧
    (p s = false → from_str_pred p s = Except.error ()) := by
  constructor
  · intro h
    rw [from_str_pred, if_pos]
    exact h
  · intro h
    rw [from_str_pred, if_neg]
    simp [is_valid_pred, h]

/-- Witness for C4 at the spec's concrete scenario: the identifier predicate accepts
`"hi"` (payload stored verbatim) and rejects `"hi!"` (unit error). -/
theorem c4_pred_mode_witness :
    from_str_pred is_identifier_value "hi" = Except.ok (Generated.mk "hi") ∧
    from_str_pred is_identifier_value "hi!" = Except.error () :=
  ⟨(c4_pred_mode is_identifier_value "hi").1 (by decide),
    (c4_pred_mode is_identifier_value "hi!").2 (by decide)⟩

/-- Claim C5: in parse mode, `from_str` is exactly the supplied parse function with its
successful text wrapped as the payload: on `Ok t` the stored payload is `t` (which may
differ from the input), on `Err e` the error is `e` of the caller-chosen type, and the
default arm of the macro fixes that type to `()`. -/
theorem c5_parse_mode {ε : Type} (f : String → Except ε String) (s : String) :
    (∀ t, f s = Except.ok t → from_str_parse f s = Except.ok (Generated.mk t)) ∧
    (∀ e, f s = Except.error e → from_str_parse f s = Except.error e) ∧
    (∀ g : String → Except Unit String, ∀ u,
      from_str_parse_defaultErr g u = from_str_parse g u) := by
  refine ⟨?_, ?_, fun g u => rfl⟩
  · intro t h
    rw [from_str_parse, h]
    rfl
  · intro e h
    rw [from_str_parse, h]
    rfl

/-- Witness for C5 at the spec's concrete scenario: the uppercase-only parse function
succeeds on `"HELLO"` storing payload `"HELLO"` and fails on `"hello"` with the unit
error. -/
theorem c5_parse_mode_witness :
    from_str_parse parse_uppercase_only "HELLO" = Except.ok (Generated.mk "HELLO") ∧
    from_str_parse parse_uppercase_only "hello" = Except.error () :=
  ⟨(c5_parse_mode parse_uppercase_only "HELLO").1 "HELLO" rfl,
    (c5_parse_mode parse_uppercase_only "hello").2.1 () rfl⟩

/-- Claim C6: all textual accessors are the identity on the stored payload: `Display`
renders it verbatim, `From<T> for String` returns it, and the `Deref` view exposes it
with zero transformation. -/
theorem c6_textual_identity (v : Generated) :
    display v = v.inner ∧ string_from v = v.inner ∧ deref v = v.inner :=
  ⟨rfl, rfl, rfl⟩

/-- Claim C7: the derived equality holds iff the payloads are equal, the derived strict
order is lexicographic over the payload characters, and equal values hash equal under
any string hasher. -/
theorem c7_structural_eq_ord_hash (v1 v2 : Generated) :
    (derived_eq v1 v2 = true ↔ v1.inner = v2.inner) ∧
    (derived_lt v1 v2 ↔ List.Lex (· < ·) v1.inner.toList v2.inner.toList) ∧
    (∀ h : String → Nat, derived_eq v1 v2 = true → derived_hash h v1 = derived_hash h v2) := by
  refine ⟨?_, ?_, ?_⟩
  · rw [derived_eq]
    exact beq_iff_eq
  · rw [derived_lt, String.lt_iff_toList_lt]
    exact Iff.rfl
  · intro h heq
    rw [derived_hash, derived_hash, (beq_iff_eq).1 heq]

/-- Witness for C7: two values with equal payload `"ab"` are derived-equal and hash
equal under the length hasher. -/
theorem c7_structural_witness :
    derived_hash String.length (Generated.mk "ab") = derived_hash String.length (Generated.mk "ab") :=
  (c7_structural_eq_ord_hash (Generated.mk "ab") (Generated.mk "ab")).2.2
    String.length (by decide)

/-- Claim C8: the predicate emitted by `regex_is_valid!` returns true iff the pattern
matches anywhere in the input (non-anchored search over contiguous substrings, not a
full-string match), and in particular it returns true for pattern `[0-9]+` on input
`"abc123"`. -/
theorem c8_regex_nonanchored :
    (∀ (r : RegularExpression Char) (s : String),
      regex_is_valid r s = true ↔
        ∃ pre mid post, s.data = pre ++ (mid ++ post) ∧ mid ∈ r.matches') ∧
    regex_is_valid digitsPlus "abc123" = true := by
  refine ⟨fun r s => searchMatch_iff r s.data, ?_⟩
  decide

/-- Claim C9: the unchecked constructor (modelled from the spec, section 4.6) wraps any
input as the payload verbatim with no validation; in particular it accepts
`"!!!invalid!!!"` even though the identifier validity check rejects that text. -/
theorem c9_unchecked_verbatim :
    (∀ s, (new_unchecked s).inner = s) ∧
    (new_unchecked "!!!invalid!!!").inner = "!!!invalid!!!" ∧
    is_valid_pred is_identifier_value "!!!invalid!!!" = false :=
  ⟨fun _ => rfl, rfl, by decide⟩

end Newstr
